import Mathlib

/-!
Verification development for the avatar animation controller
(`AvatarLobsterAI` in `src/App.tsx` / `Lobster.tsx`), the water mesh
(`ObjectWater`), the camera rig (`CamRig`) and the dev-server
configuration (`vite.config.ts`) of the repository.

The React components are embedded shallowly: one run of the controller's
status effect becomes a pure function from the controller state (the
`prevActionNameRef` string and the `canPlayNext` boolean) and the incoming
status to a new state plus the list of mixer commands issued during that
run; the mixer's `finished`-event handler becomes a second pure function
on the state.  The purely declarative components become records holding
exactly the values the source passes to the external framework.
-/

/-- The externally supplied status enum (`animationStatus` from the
`bvhecctrl` animation store). -/
inductive Status where
  | IDLE
  | WALK
  | RUN
  | JUMP_START
  | JUMP_IDLE
  | JUMP_FALL
  | JUMP_LAND
deriving DecidableEq, Repr, Fintype

/-- `statusToActionMap` from `AvatarLobsterAI`: the object literal mapping
each status value to a clip name. -/
def statusToActionMap : Status → String
  | .IDLE => "IDLE"
  | .WALK => "WALK"
  | .RUN => "JOG"
  | .JUMP_START => "JUMP_START"
  | .JUMP_IDLE => "JUMP_LOOP"
  | .JUMP_FALL => "JUMP_LOOP"
  | .JUMP_LAND => "JUMP_LAND"

/-- Loop modes of the external animation system (only `LoopOnce` is used
by the controller). -/
inductive LoopMode where
  | LoopOnce
  | LoopRepeat
deriving DecidableEq, Repr

/-- One command issued to the external animation mixer / action objects
during a run of the status effect. -/
inductive MixerCmd where
  | setTimeScale (action : String) (scale : ℚ)
  | reset (action : String)
  | crossFadeFrom (action fromAction : String) (duration : ℚ)
  | setLoop (action : String) (mode : LoopMode) (repetitions : Nat)
  | play (action : String)
  | clampWhenFinished (action : String) (value : Bool)
deriving DecidableEq, Repr

/-- Whether a mixer command is a `setLoop` call. -/
def MixerCmd.isSetLoop : MixerCmd → Bool
  | .setLoop _ _ _ => true
  | _ => false

/-- Whether a mixer command is a `setTimeScale` assignment. -/
def MixerCmd.isSetTimeScale : MixerCmd → Bool
  | .setTimeScale _ _ => true
  | _ => false

/-- The controller's own mutable state: `prevActionNameRef.current` and
the `canPlayNext` boolean gate. -/
structure CtrlState where
  prevActionName : String
  canPlayNext : Bool
deriving DecidableEq, Repr

/-- State at mount: `useRef("IDLE")` and `useState(true)`. -/
def initialState : CtrlState := ⟨"IDLE", true⟩

/-- Commands of the mount effect: if the `IDLE` action exists it is played
(no crossfade, no reset). -/
def mountCmds (actions : List String) : List MixerCmd :=
  if "IDLE" ∈ actions then [MixerCmd.play "IDLE"] else []

/-- Commands of the one-shot branch of the status effect: timeScale `0.5`,
`reset`, `crossFadeFrom(prev, 0.1)`, `setLoop(LoopOnce, 1)`, `play`, then
`clampWhenFinished = true`. -/
def oneShotCmds (next prev : String) : List MixerCmd :=
  [ MixerCmd.setTimeScale next (1/2),
    MixerCmd.reset next,
    MixerCmd.crossFadeFrom next prev (1/10),
    MixerCmd.setLoop next LoopMode.LoopOnce 1,
    MixerCmd.play next,
    MixerCmd.clampWhenFinished next true ]

/-- Commands of the looping branch of the status effect: timeScale `1`,
`reset`, `crossFadeFrom(prev, 0.2)`, `play` (the loop mode is not
touched). -/
def loopingCmds (next prev : String) : List MixerCmd :=
  [ MixerCmd.setTimeScale next 1,
    MixerCmd.reset next,
    MixerCmd.crossFadeFrom next prev (1/5),
    MixerCmd.play next ]

/-- The block of trailing `timeScale` assignments at the end of the status
effect (one independent `if` per status; the existence of `nextAction` has
already been checked by the early return). -/
def overrideCmds (next : String) (status : Status) : List MixerCmd :=
  (if status = Status.RUN then [MixerCmd.setTimeScale next (45/100)] else []) ++
  (if status = Status.WALK then [MixerCmd.setTimeScale next (45/100)] else []) ++
  (if status = Status.JUMP_START then [MixerCmd.setTimeScale next (1/2 * 2)] else []) ++
  (if status = Status.JUMP_LAND then [MixerCmd.setTimeScale next (44/100 * 2)] else []) ++
  (if status = Status.JUMP_IDLE then [MixerCmd.setTimeScale next 0] else []) ++
  (if status = Status.JUMP_FALL then [MixerCmd.setTimeScale next 0] else [])

/-- The transition block of the status effect (`if (nextActionName !==
prevActionName && canPlayNext)`): on a one-shot target the gate closes and
`oneShotCmds` run; on any other target the gate is (re)set open and
`loopingCmds` run; in both branches `prevActionNameRef.current` becomes the
next action name.  When the guard fails, nothing happens. -/
def transitionResult (s : CtrlState) (status : Status) : CtrlState × List MixerCmd :=
  let nextActionName := statusToActionMap status
  if nextActionName ≠ s.prevActionName ∧ s.canPlayNext = true then
    if nextActionName = statusToActionMap Status.JUMP_START ∨
        nextActionName = statusToActionMap Status.JUMP_LAND then
      (⟨nextActionName, false⟩, oneShotCmds nextActionName s.prevActionName)
    else
      (⟨nextActionName, true⟩, loopingCmds nextActionName s.prevActionName)
  else (s, [])

/-- The two gate-reopening `if`s of the status effect.  They read the
closure value of `canPlayNext` and the `prevActionName` constant captured
before the transition block, i.e. the fields of the pre-effect state `s`,
and apply on top of the post-transition state `s1`. -/
def reopenGate (s : CtrlState) (status : Status) (s1 : CtrlState) : CtrlState :=
  if (s.canPlayNext = false ∧ s.prevActionName = statusToActionMap Status.JUMP_START ∧
        status ≠ Status.JUMP_IDLE ∧ status ≠ Status.JUMP_START) ∨
     (s.canPlayNext = false ∧ s.prevActionName = statusToActionMap Status.JUMP_LAND ∧
        status ≠ Status.IDLE ∧ status ≠ Status.JUMP_LAND) then
    { s1 with canPlayNext := true }
  else s1

/-- One run of the status effect of `AvatarLobsterAI`: given the set of
clip names present in the `actions` table, the current controller state
and the incoming status, it returns the new controller state and the list
of mixer commands issued.  If the mapped action is missing the effect
returns early with no command and no state change. -/
def statusUpdate (actions : List String) (s : CtrlState) (status : Status) :
    CtrlState × List MixerCmd :=
  if statusToActionMap status ∈ actions then
    (reopenGate s status (transitionResult s status).1,
      (transitionResult s status).2 ++ overrideCmds (statusToActionMap status) status)
  else (s, [])

/-- The mixer's `finished`-event handler: when the gate is closed and the
finished clip is `JUMP_START` or `JUMP_LAND`, the gate reopens. -/
def onFinished (s : CtrlState) (clipName : String) : CtrlState :=
  if s.canPlayNext = false ∧
      (clipName = statusToActionMap Status.JUMP_START ∨
        clipName = statusToActionMap Status.JUMP_LAND) then
    { s with canPlayNext := true }
  else s

/-- Iterated status updates (state part only). -/
def runUpdates (actions : List String) (s : CtrlState) (statuses : List Status) : CtrlState :=
  statuses.foldl (fun st status => (statusUpdate actions st status).1) s

/-- States of the controller reachable from the mount state by runs of the
status effect and `finished` events. -/
inductive Reachable : CtrlState → Prop where
  | init : Reachable initialState
  | update (actions : List String) (status : Status) {s : CtrlState} :
      Reachable s → Reachable (statusUpdate actions s status).1
  | finished (clipName : String) {s : CtrlState} :
      Reachable s → Reachable (onFinished s clipName)

/-- Material side constants of the external engine. -/
inductive Side where
  | FrontSide
  | BackSide
  | DoubleSide
deriving DecidableEq, Repr

/-- Everything `ObjectWater`'s mount effect passes to the external engine:
the plane geometry size, its rotation about X (as a multiple of pi), the
`WaterMesh` options, and the post-construction mesh fields. -/
structure WaterSetup where
  geoWidth : ℚ
  geoHeight : ℚ
  geoRotateXPiFactor : ℚ
  resolutionScale : ℚ
  sunDirection : ℚ × ℚ × ℚ
  sunColor : Nat
  waterColor : String
  distortionScale : ℚ
  waterNormalsURL : String
  materialSide : Side
  positionY : ℚ
  rotationXPiFactor : ℚ
deriving DecidableEq, Repr

/-- The water mesh built by `ObjectWater`'s mount effect. -/
def objectWaterSetup : WaterSetup :=
  { geoWidth := 10000
    geoHeight := 10000
    geoRotateXPiFactor := -1/2
    resolutionScale := 1/2
    sunDirection := (0, 1, 0)
    sunColor := 0xffffff
    waterColor := "#6fb8ac"
    distortionScale := 5
    waterNormalsURL := "/textures/waternormals.jpg"
    materialSide := Side.DoubleSide
    positionY := -5
    rotationXPiFactor := 0 }

/-- `ObjectWater`'s mount effect has an empty dependency array, so it runs
once and builds one water mesh. -/
def objectWaterMountEffects : List WaterSetup := [objectWaterSetup]

/-- One command issued to the camera by `CamRig`'s mount effect. -/
inductive CamCmd where
  | decompose (matrixElements : List ℚ)
  | setFov (v : ℚ)
  | setFar (v : ℚ)
  | setNear (v : ℚ)
  | updateProjectionMatrix
deriving DecidableEq, Repr

/-- The 16 column-major elements of the hard-coded matrix in `CamRig`
(`new Matrix4().fromArray([...])`), as exact decimals. -/
def camRigMatrixElements : List ℚ :=
  [ 9840423933287578/10^16, 10408340855860843/10^33, 1779341679717821/10^16, 0,
    5954104347474225/10^17, 9423517267593705/10^16, -(3292842043213908/10^16), 0,
    -(16767657043770076/10^17), 33462400253662705/10^17, 9273140485577785/10^16, 0,
    -(1366004999600759/10^13), 272606995275635/10^12, 7554517743435046/10^13, 1 ]

/-- The commands of `CamRig`'s mount effect, in source order: decompose
the hard-coded matrix into position, quaternion and scale, set `fov`,
`far` and `near`, then update the projection matrix. -/
def camRigMountCmds : List CamCmd :=
  [ CamCmd.decompose camRigMatrixElements,
    CamCmd.setFov 50,
    CamCmd.setFar 15000,
    CamCmd.setNear 5,
    CamCmd.updateProjectionMatrix ]

/-- The plugins passed to `defineConfig` in `vite.config.ts`. -/
inductive VitePlugin where
  | react
  | tailwindcss
deriving DecidableEq, Repr

/-- The `server` block of `vite.config.ts`. -/
structure ViteServerConfig where
  host : String
  port : Nat
  allowedHosts : List String
deriving DecidableEq, Repr

/-- The whole object passed to `defineConfig` in `vite.config.ts`,
parametrised by the `fronthost` value imported from `./settings`. -/
structure ViteConfig where
  server : ViteServerConfig
  plugins : List VitePlugin
deriving DecidableEq, Repr

/-- `vite.config.ts`: host `0.0.0.0`, port `5173`, `allowedHosts`
containing exactly the imported `fronthost`, plugins React then
Tailwind. -/
def viteConfig (fronthost : String) : ViteConfig :=
  { server := { host := "0.0.0.0", port := 5173, allowedHosts := [fronthost] }
    plugins := [VitePlugin.react, VitePlugin.tailwindcss] }

/-! ## Helper lemmas -/

theorem reopenGate_prev (s : CtrlState) (status : Status) (s1 : CtrlState) :
    (reopenGate s status s1).prevActionName = s1.prevActionName := by
  unfold reopenGate; split <;> rfl

theorem transitionResult_closed (s : CtrlState) (status : Status)
    (h : s.canPlayNext = false) : transitionResult s status = (s, []) := by
  simp [transitionResult, h]

theorem overrideCmds_only_timeScale (next : String) (status : Status) :
    ∀ c ∈ overrideCmds next status, c.isSetTimeScale = true := by
  cases status <;> intro c hc <;>
    simp_all [overrideCmds, MixerCmd.isSetTimeScale]

/-! ## Claim theorems -/

/-- C1: `statusToActionMap` is total on the status enum, lands in the set
of clip names, and maps IDLE to IDLE, WALK to WALK, RUN to JOG, JUMP_START
to JUMP_START, JUMP_IDLE and JUMP_FALL both to JUMP_LOOP, and JUMP_LAND to
JUMP_LAND, so it is not injective. -/
theorem statusToActionMap_total_values :
    (∀ st : Status,
      statusToActionMap st ∈
        ["IDLE", "WALK", "JOG", "JUMP_START", "JUMP_LOOP", "JUMP_LAND"]) ∧
    statusToActionMap Status.IDLE = "IDLE" ∧
    statusToActionMap Status.WALK = "WALK" ∧
    statusToActionMap Status.RUN = "JOG" ∧
    statusToActionMap Status.JUMP_START = "JUMP_START" ∧
    statusToActionMap Status.JUMP_IDLE = "JUMP_LOOP" ∧
    statusToActionMap Status.JUMP_FALL = "JUMP_LOOP" ∧
    statusToActionMap Status.JUMP_LAND = "JUMP_LAND" ∧
    statusToActionMap Status.JUMP_IDLE = statusToActionMap Status.JUMP_FALL ∧
    Status.JUMP_IDLE ≠ Status.JUMP_FALL := by
  decide

/-- C5: when the mapped action name is missing from the actions table, the
status effect returns early: no command is issued and the controller state
is unchanged. -/
theorem missing_clip_noop (actions : List String) (s : CtrlState) (status : Status)
    (h : statusToActionMap status ∉ actions) :
    statusUpdate actions s status = (s, []) := by
  simp [statusUpdate, h]

theorem missing_clip_noop_witness :
    statusUpdate [] initialState Status.WALK = (initialState, []) :=
  missing_clip_noop [] initialState Status.WALK (by decide)

/-- C7: on mount `prevActionNameRef.current` is `"IDLE"`, the gate is open,
and when the actions table has the IDLE clip the mount effect plays it once
with no crossfade. -/
theorem initial_controller_state (actions : List String) (h : "IDLE" ∈ actions) :
    initialState.prevActionName = "IDLE" ∧ initialState.canPlayNext = true ∧
    mountCmds actions = [MixerCmd.play "IDLE"] :=
  ⟨rfl, rfl, by simp [mountCmds, h]⟩

theorem initial_controller_state_witness :
    initialState.prevActionName = "IDLE" ∧ initialState.canPlayNext = true ∧
    mountCmds ["IDLE"] = [MixerCmd.play "IDLE"] :=
  initial_controller_state ["IDLE"] (by decide)

/-- C9: `ObjectWater` builds exactly one water mesh on mount: a 10000 by
10000 plane rotated by -pi/2 about X, `WaterMesh` options resolutionScale
0.5, sun direction (0,1,0), white sun color, water color `#6fb8ac`,
distortion scale 5; material double-sided, position y = -5, x rotation
zero. -/
theorem water_mesh_construction :
    objectWaterMountEffects = [objectWaterSetup] ∧
    objectWaterSetup.geoWidth = 10000 ∧
    objectWaterSetup.geoHeight = 10000 ∧
    objectWaterSetup.geoRotateXPiFactor = -(1/2) ∧
    objectWaterSetup.resolutionScale = 1/2 ∧
    objectWaterSetup.sunDirection = (0, 1, 0) ∧
    objectWaterSetup.sunColor = 0xffffff ∧
    objectWaterSetup.waterColor = "#6fb8ac" ∧
    objectWaterSetup.distortionScale = 5 ∧
    objectWaterSetup.materialSide = Side.DoubleSide ∧
    objectWaterSetup.positionY = -5 ∧
    objectWaterSetup.rotationXPiFactor = 0 := by
  unfold objectWaterMountEffects objectWaterSetup
  norm_num

/-- C10: `CamRig` decomposes one hard-coded 16-element matrix into the
camera pose and sets fov 50, far 15000, near 5 before updating the
projection matrix; the dev-server config is host `0.0.0.0`, port 5173,
`allowedHosts` exactly the imported `fronthost`, plugins React then
Tailwind. -/
theorem camrig_and_vite_config :
    camRigMountCmds =
      [ CamCmd.decompose camRigMatrixElements, CamCmd.setFov 50,
        CamCmd.setFar 15000, CamCmd.setNear 5, CamCmd.updateProjectionMatrix ] ∧
    camRigMatrixElements.length = 16 ∧
    camRigMountCmds.getLast? = some CamCmd.updateProjectionMatrix ∧
    ∀ fronthost : String,
      viteConfig fronthost =
        { server := { host := "0.0.0.0", port := 5173, allowedHosts := [fronthost] }
          plugins := [VitePlugin.react, VitePlugin.tailwindcss] } :=
  ⟨rfl, rfl, rfl, fun _ => rfl⟩

theorem reopenGate_open (s : CtrlState) (status : Status) (s1 : CtrlState)
    (h : s.canPlayNext = true) : reopenGate s status s1 = s1 := by
  unfold reopenGate
  rw [if_neg]
  simp [h]

theorem statusUpdate_closed_prev (actions : List String) (s : CtrlState)
    (status : Status) (h : s.canPlayNext = false) :
    (statusUpdate actions s status).1.prevActionName = s.prevActionName := by
  unfold statusUpdate
  split
  · rw [transitionResult_closed s status h]
    exact reopenGate_prev s status s
  · rfl

theorem overrideCmds_no_setLoop (next : String) (status : Status) :
    ∀ c ∈ overrideCmds next status, c.isSetLoop = false := by
  cases status <;> intro c hc <;>
    simp_all [overrideCmds, MixerCmd.isSetLoop]

theorem gateReopen_iff (actions : List String) (s : CtrlState) (status : Status)
    (h : s.canPlayNext = false) :
    ((statusUpdate actions s status).1.canPlayNext = true ↔
      statusToActionMap status ∈ actions ∧
        ((s.prevActionName = "JUMP_START" ∧ status ≠ Status.JUMP_IDLE ∧
            status ≠ Status.JUMP_START) ∨
         (s.prevActionName = "JUMP_LAND" ∧ status ≠ Status.IDLE ∧
            status ≠ Status.JUMP_LAND))) := by
  unfold statusUpdate
  split <;> rename_i hmem
  · rw [transitionResult_closed s status h]
    dsimp only
    unfold reopenGate
    split <;> rename_i hcond
    · constructor
      · intro _
        refine ⟨hmem, ?_⟩
        rcases hcond with ⟨_, hc⟩ | ⟨_, hc⟩
        · exact Or.inl (by simpa [statusToActionMap] using hc)
        · exact Or.inr (by simpa [statusToActionMap] using hc)
      · intro _; rfl
    · rw [h]
      simp only [Bool.false_eq_true, false_iff, not_and]
      intro _ hconds
      apply hcond
      rcases hconds with hc | hc
      · exact Or.inl ⟨h, by simpa [statusToActionMap] using hc⟩
      · exact Or.inr ⟨h, by simpa [statusToActionMap] using hc⟩
  · simp [h, hmem]

theorem stayClosed_step (actions : List String) (s : CtrlState) (status : Status)
    (h : s.canPlayNext = false)
    (hnot : ¬((s.prevActionName = "JUMP_START" ∧ status ≠ Status.JUMP_IDLE ∧
                status ≠ Status.JUMP_START) ∨
              (s.prevActionName = "JUMP_LAND" ∧ status ≠ Status.IDLE ∧
                status ≠ Status.JUMP_LAND))) :
    (statusUpdate actions s status).1.canPlayNext = false := by
  rcases hb : (statusUpdate actions s status).1.canPlayNext with _ | _
  · rfl
  · exact absurd ((gateReopen_iff actions s status h).1 hb).2 hnot

theorem runUpdates_cons (actions : List String) (s : CtrlState) (status : Status)
    (rest : List Status) :
    runUpdates actions s (status :: rest) =
      runUpdates actions (statusUpdate actions s status).1 rest := rfl

theorem runUpdates_stayClosed_JS (actions : List String) (statuses : List Status) :
    ∀ s : CtrlState, s.canPlayNext = false → s.prevActionName = "JUMP_START" →
      (∀ st ∈ statuses, st = Status.JUMP_START ∨ st = Status.JUMP_IDLE) →
      (runUpdates actions s statuses).canPlayNext = false := by
  induction statuses with
  | nil => intro s h _ _; exact h
  | cons status rest ih =>
      intro s h hp hall
      have hnot : ¬((s.prevActionName = "JUMP_START" ∧ status ≠ Status.JUMP_IDLE ∧
            status ≠ Status.JUMP_START) ∨
          (s.prevActionName = "JUMP_LAND" ∧ status ≠ Status.IDLE ∧
            status ≠ Status.JUMP_LAND)) := by
        rcases hall status (by simp) with hst | hst <;> subst hst <;> simp [hp]
      have h1 : (statusUpdate actions s status).1.canPlayNext = false :=
        stayClosed_step actions s status h hnot
      have h2 : (statusUpdate actions s status).1.prevActionName = "JUMP_START" := by
        rw [statusUpdate_closed_prev actions s status h]; exact hp
      rw [runUpdates_cons]
      exact ih _ h1 h2 (fun st hst => hall st (by simp [hst]))

theorem runUpdates_stayClosed_JL (actions : List String) (statuses : List Status) :
    ∀ s : CtrlState, s.canPlayNext = false → s.prevActionName = "JUMP_LAND" →
      (∀ st ∈ statuses, st = Status.IDLE ∨ st = Status.JUMP_LAND) →
      (runUpdates actions s statuses).canPlayNext = false := by
  induction statuses with
  | nil => intro s h _ _; exact h
  | cons status rest ih =>
      intro s h hp hall
      have hnot : ¬((s.prevActionName = "JUMP_START" ∧ status ≠ Status.JUMP_IDLE ∧
            status ≠ Status.JUMP_START) ∨
          (s.prevActionName = "JUMP_LAND" ∧ status ≠ Status.IDLE ∧
            status ≠ Status.JUMP_LAND)) := by
        rcases hall status (by simp) with hst | hst <;> subst hst <;> simp [hp]
      have h1 : (statusUpdate actions s status).1.canPlayNext = false :=
        stayClosed_step actions s status h hnot
      have h2 : (statusUpdate actions s status).1.prevActionName = "JUMP_LAND" := by
        rw [statusUpdate_closed_prev actions s status h]; exact hp
      rw [runUpdates_cons]
      exact ih _ h1 h2 (fun st hst => hall st (by simp [hst]))

theorem onFinished_canPlayNext_iff (s : CtrlState) (clip : String)
    (h : s.canPlayNext = false) :
    ((onFinished s clip).canPlayNext = true ↔
      (clip = "JUMP_START" ∨ clip = "JUMP_LAND")) := by
  unfold onFinished
  split <;> rename_i hcond
  · simp only [true_iff]
    simpa [statusToActionMap] using hcond.2
  · rw [h]
    simp only [Bool.false_eq_true, false_iff]
    intro hc
    exact hcond ⟨h, by simpa [statusToActionMap] using hc⟩

/-- C2: while the gate is closed, a status update starts no crossfade,
resets or plays no clip (every issued command is a `timeScale`
assignment), leaves `prevActionNameRef.current` unchanged, and the only
controller-state change it may make is reopening the gate (otherwise the
state is exactly unchanged). -/
theorem closed_gate_blocks_transitions (actions : List String) (s : CtrlState)
    (status : Status) (h : s.canPlayNext = false) :
    (statusUpdate actions s status).1.prevActionName = s.prevActionName ∧
    (∀ c ∈ (statusUpdate actions s status).2, c.isSetTimeScale = true) ∧
    ((statusUpdate actions s status).1.canPlayNext = true ∨
      (statusUpdate actions s status).1 = s) := by
  refine ⟨statusUpdate_closed_prev actions s status h, ?_, ?_⟩
  · unfold statusUpdate
    split
    · rw [transitionResult_closed s status h]
      dsimp only
      intro c hc
      rw [List.nil_append] at hc
      exact overrideCmds_only_timeScale _ _ c hc
    · intro c hc
      simp at hc
  · unfold statusUpdate
    split
    · rw [transitionResult_closed s status h]
      dsimp only
      unfold reopenGate
      split
      · exact Or.inl rfl
      · exact Or.inr rfl
    · exact Or.inr rfl

theorem closed_gate_blocks_transitions_witness :
    (statusUpdate ["JUMP_LOOP"] ⟨"JUMP_START", false⟩ Status.JUMP_IDLE).1.prevActionName =
      (⟨"JUMP_START", false⟩ : CtrlState).prevActionName ∧
    (∀ c ∈ (statusUpdate ["JUMP_LOOP"] ⟨"JUMP_START", false⟩ Status.JUMP_IDLE).2,
      c.isSetTimeScale = true) ∧
    ((statusUpdate ["JUMP_LOOP"] ⟨"JUMP_START", false⟩ Status.JUMP_IDLE).1.canPlayNext = true ∨
      (statusUpdate ["JUMP_LOOP"] ⟨"JUMP_START", false⟩ Status.JUMP_IDLE).1 =
        ⟨"JUMP_START", false⟩) :=
  closed_gate_blocks_transitions ["JUMP_LOOP"] ⟨"JUMP_START", false⟩ Status.JUMP_IDLE rfl

/-- C4: once the gate is closed it reopens only through one of three
events: a `finished` event for the JUMP_START or JUMP_LAND clip; the
previous action is JUMP_START while the status is neither JUMP_START nor
JUMP_IDLE; or the previous action is JUMP_LAND while the status is neither
IDLE nor JUMP_LAND.  While the previous action is JUMP_START and every
incoming status stays in {JUMP_START, JUMP_IDLE} (resp. JUMP_LAND with
{IDLE, JUMP_LAND}) and no `finished` event fires, the gate never
reopens. -/
theorem gate_reopen_conditions (actions : List String) (s : CtrlState)
    (status : Status) (clip : String) (statuses : List Status)
    (h : s.canPlayNext = false) :
    ((statusUpdate actions s status).1.canPlayNext = true →
      ((s.prevActionName = "JUMP_START" ∧ status ≠ Status.JUMP_START ∧
          status ≠ Status.JUMP_IDLE) ∨
       (s.prevActionName = "JUMP_LAND" ∧ status ≠ Status.IDLE ∧
          status ≠ Status.JUMP_LAND))) ∧
    ((onFinished s clip).canPlayNext = true ↔
      (clip = "JUMP_START" ∨ clip = "JUMP_LAND")) ∧
    (s.prevActionName = "JUMP_START" →
      (∀ st ∈ statuses, st = Status.JUMP_START ∨ st = Status.JUMP_IDLE) →
      (runUpdates actions s statuses).canPlayNext = false) ∧
    (s.prevActionName = "JUMP_LAND" →
      (∀ st ∈ statuses, st = Status.IDLE ∨ st = Status.JUMP_LAND) →
      (runUpdates actions s statuses).canPlayNext = false) := by
  refine ⟨?_, onFinished_canPlayNext_iff s clip h,
    fun hp hall => runUpdates_stayClosed_JS actions statuses s h hp hall,
    fun hp hall => runUpdates_stayClosed_JL actions statuses s h hp hall⟩
  intro hopen
  rcases ((gateReopen_iff actions s status h).1 hopen).2 with ⟨hp, h1, h2⟩ | ⟨hp, h1, h2⟩
  · exact Or.inl ⟨hp, h2, h1⟩
  · exact Or.inr ⟨hp, h1, h2⟩

theorem gate_reopen_conditions_witness :
    ((statusUpdate ["JUMP_LOOP"] ⟨"JUMP_START", false⟩ Status.JUMP_IDLE).1.canPlayNext = true →
      (((⟨"JUMP_START", false⟩ : CtrlState).prevActionName = "JUMP_START" ∧
          Status.JUMP_IDLE ≠ Status.JUMP_START ∧ Status.JUMP_IDLE ≠ Status.JUMP_IDLE) ∨
       ((⟨"JUMP_START", false⟩ : CtrlState).prevActionName = "JUMP_LAND" ∧
          Status.JUMP_IDLE ≠ Status.IDLE ∧ Status.JUMP_IDLE ≠ Status.JUMP_LAND))) ∧
    ((onFinished ⟨"JUMP_START", false⟩ "JUMP_START").canPlayNext = true ↔
      ("JUMP_START" = "JUMP_START" ∨ "JUMP_START" = "JUMP_LAND")) ∧
    ((⟨"JUMP_START", false⟩ : CtrlState).prevActionName = "JUMP_START" →
      (∀ st ∈ [Status.JUMP_IDLE], st = Status.JUMP_START ∨ st = Status.JUMP_IDLE) →
      (runUpdates ["JUMP_LOOP"] ⟨"JUMP_START", false⟩ [Status.JUMP_IDLE]).canPlayNext = false) ∧
    ((⟨"JUMP_START", false⟩ : CtrlState).prevActionName = "JUMP_LAND" →
      (∀ st ∈ [Status.JUMP_IDLE], st = Status.IDLE ∨ st = Status.JUMP_LAND) →
      (runUpdates ["JUMP_LOOP"] ⟨"JUMP_START", false⟩ [Status.JUMP_IDLE]).canPlayNext = false) :=
  gate_reopen_conditions ["JUMP_LOOP"] ⟨"JUMP_START", false⟩ Status.JUMP_IDLE
    "JUMP_START" [Status.JUMP_IDLE] rfl

theorem gateInvariant_step (actions : List String) (s : CtrlState) (status : Status)
    (ih : s.canPlayNext = false →
      s.prevActionName = "JUMP_START" ∨ s.prevActionName = "JUMP_LAND") :
    (statusUpdate actions s status).1.canPlayNext = false →
      (statusUpdate actions s status).1.prevActionName = "JUMP_START" ∨
      (statusUpdate actions s status).1.prevActionName = "JUMP_LAND" := by
  rcases hg : s.canPlayNext with _ | _
  · intro _
    rw [statusUpdate_closed_prev actions s status hg]
    exact ih hg
  · unfold statusUpdate
    split
    · dsimp only
      rw [reopenGate_open s status _ hg]
      unfold transitionResult
      dsimp only
      split <;> rename_i hguard
      · split <;> rename_i hjump
        · intro _
          rcases hjump with hj | hj
          · exact Or.inl (by simpa [statusToActionMap] using hj)
          · exact Or.inr (by simpa [statusToActionMap] using hj)
        · intro hfalse
          simp at hfalse
      · intro hfalse
        dsimp at hfalse
        rw [hg] at hfalse
        simp at hfalse
    · intro hfalse
      dsimp at hfalse
      rw [hg] at hfalse
      simp at hfalse

theorem gateInvariant (s : CtrlState) (hr : Reachable s) :
    s.canPlayNext = false →
      s.prevActionName = "JUMP_START" ∨ s.prevActionName = "JUMP_LAND" := by
  induction hr with
  | init => intro hfalse; simp [initialState] at hfalse
  | update actions status hr ih => exact gateInvariant_step _ _ _ ih
  | finished clipName hr ih =>
      unfold onFinished
      split
      · intro hfalse; simp at hfalse
      · exact ih

/-- C6: in every reachable controller state the gate is closed only if the
previous action is one of the two one-shot clips JUMP_START or
JUMP_LAND. -/
theorem gate_closed_only_after_oneshot (s : CtrlState) (hr : Reachable s)
    (h : s.canPlayNext = false) :
    s.prevActionName = "JUMP_START" ∨ s.prevActionName = "JUMP_LAND" :=
  gateInvariant s hr h

theorem gate_closed_only_after_oneshot_witness :
    (statusUpdate ["JUMP_START"] initialState Status.JUMP_START).1.prevActionName =
      "JUMP_START" ∨
    (statusUpdate ["JUMP_START"] initialState Status.JUMP_START).1.prevActionName =
      "JUMP_LAND" :=
  gate_closed_only_after_oneshot _
    (Reachable.update ["JUMP_START"] Status.JUMP_START Reachable.init) (by decide)

theorem transitionResult_go (s : CtrlState) (status : Status)
    (hne : statusToActionMap status ≠ s.prevActionName) (hgate : s.canPlayNext = true) :
    transitionResult s status =
      if statusToActionMap status = "JUMP_START" ∨ statusToActionMap status = "JUMP_LAND" then
        (⟨statusToActionMap status, false⟩,
          oneShotCmds (statusToActionMap status) s.prevActionName)
      else
        (⟨statusToActionMap status, true⟩,
          loopingCmds (statusToActionMap status) s.prevActionName) := by
  unfold transitionResult
  dsimp only
  rw [if_pos ⟨hne, hgate⟩]
  rfl

/-- C3: with the gate open and a changed mapped action name, a JUMP_START
or JUMP_LAND target closes the gate and is reset, crossfaded from the
previous action over 0.1 s, set to play LoopOnce with 1 repetition,
played, and clamped when finished; any other target keeps the gate open,
is crossfaded over 0.2 s, and its loop mode is never touched; in both
cases `prevActionNameRef.current` becomes the next action name. -/
theorem transition_branches (actions : List String) (s : CtrlState) (status : Status)
    (hmem : statusToActionMap status ∈ actions)
    (hne : statusToActionMap status ≠ s.prevActionName)
    (hgate : s.canPlayNext = true) :
    (statusUpdate actions s status).1.prevActionName = statusToActionMap status ∧
    (if statusToActionMap status = "JUMP_START" ∨ statusToActionMap status = "JUMP_LAND" then
      (statusUpdate actions s status).1.canPlayNext = false ∧
      (statusUpdate actions s status).2 =
        oneShotCmds (statusToActionMap status) s.prevActionName ++
          overrideCmds (statusToActionMap status) status ∧
      MixerCmd.crossFadeFrom (statusToActionMap status) s.prevActionName (1/10) ∈
        (statusUpdate actions s status).2 ∧
      MixerCmd.setLoop (statusToActionMap status) LoopMode.LoopOnce 1 ∈
        (statusUpdate actions s status).2 ∧
      MixerCmd.clampWhenFinished (statusToActionMap status) true ∈
        (statusUpdate actions s status).2
    else
      (statusUpdate actions s status).1.canPlayNext = true ∧
      (statusUpdate actions s status).2 =
        loopingCmds (statusToActionMap status) s.prevActionName ++
          overrideCmds (statusToActionMap status) status ∧
      MixerCmd.crossFadeFrom (statusToActionMap status) s.prevActionName (1/5) ∈
        (statusUpdate actions s status).2 ∧
      ∀ c ∈ (statusUpdate actions s status).2, c.isSetLoop = false) := by
  have hstep : statusUpdate actions s status =
      (reopenGate s status (transitionResult s status).1,
        (transitionResult s status).2 ++ overrideCmds (statusToActionMap status) status) := by
    unfold statusUpdate
    rw [if_pos hmem]
  rw [hstep, transitionResult_go s status hne hgate]
  by_cases hj : statusToActionMap status = "JUMP_START" ∨ statusToActionMap status = "JUMP_LAND"
  · rw [if_pos hj]
    rw [if_pos hj]
    dsimp only
    rw [reopenGate_open s status _ hgate]
    refine ⟨rfl, rfl, rfl, ?_, ?_, ?_⟩ <;> simp [oneShotCmds]
  · rw [if_neg hj]
    rw [if_neg hj]
    dsimp only
    rw [reopenGate_open s status _ hgate]
    refine ⟨rfl, rfl, rfl, ?_, ?_⟩
    · simp [loopingCmds]
    · intro c hc
      rw [List.mem_append] at hc
      rcases hc with hc | hc
      · simp only [loopingCmds, List.mem_cons, List.not_mem_nil, or_false] at hc
        rcases hc with rfl | rfl | rfl | rfl <;> rfl
      · exact overrideCmds_no_setLoop _ _ c hc

theorem transition_branches_witness :
    (statusUpdate ["JUMP_START"] initialState Status.JUMP_START).1.prevActionName =
      statusToActionMap Status.JUMP_START ∧
    (if statusToActionMap Status.JUMP_START = "JUMP_START" ∨
        statusToActionMap Status.JUMP_START = "JUMP_LAND" then
      (statusUpdate ["JUMP_START"] initialState Status.JUMP_START).1.canPlayNext = false ∧
      (statusUpdate ["JUMP_START"] initialState Status.JUMP_START).2 =
        oneShotCmds (statusToActionMap Status.JUMP_START) initialState.prevActionName ++
          overrideCmds (statusToActionMap Status.JUMP_START) Status.JUMP_START ∧
      MixerCmd.crossFadeFrom (statusToActionMap Status.JUMP_START)
          initialState.prevActionName (1/10) ∈
        (statusUpdate ["JUMP_START"] initialState Status.JUMP_START).2 ∧
      MixerCmd.setLoop (statusToActionMap Status.JUMP_START) LoopMode.LoopOnce 1 ∈
        (statusUpdate ["JUMP_START"] initialState Status.JUMP_START).2 ∧
      MixerCmd.clampWhenFinished (statusToActionMap Status.JUMP_START) true ∈
        (statusUpdate ["JUMP_START"] initialState Status.JUMP_START).2
    else
      (statusUpdate ["JUMP_START"] initialState Status.JUMP_START).1.canPlayNext = true ∧
      (statusUpdate ["JUMP_START"] initialState Status.JUMP_START).2 =
        loopingCmds (statusToActionMap Status.JUMP_START) initialState.prevActionName ++
          overrideCmds (statusToActionMap Status.JUMP_START) Status.JUMP_START ∧
      MixerCmd.crossFadeFrom (statusToActionMap Status.JUMP_START)
          initialState.prevActionName (1/5) ∈
        (statusUpdate ["JUMP_START"] initialState Status.JUMP_START).2 ∧
      ∀ c ∈ (statusUpdate ["JUMP_START"] initialState Status.JUMP_START).2,
        c.isSetLoop = false) :=
  transition_branches ["JUMP_START"] initialState Status.JUMP_START
    (by decide) (by decide) rfl

theorem overrideCmds_WALK (n : String) :
    overrideCmds n Status.WALK = [MixerCmd.setTimeScale n (45/100)] := rfl

theorem overrideCmds_RUN (n : String) :
    overrideCmds n Status.RUN = [MixerCmd.setTimeScale n (45/100)] := rfl

theorem overrideCmds_JS (n : String) :
    overrideCmds n Status.JUMP_START = [MixerCmd.setTimeScale n (1/2 * 2)] := rfl

theorem overrideCmds_JL (n : String) :
    overrideCmds n Status.JUMP_LAND = [MixerCmd.setTimeScale n (44/100 * 2)] := rfl

theorem overrideCmds_JI (n : String) :
    overrideCmds n Status.JUMP_IDLE = [MixerCmd.setTimeScale n 0] := rfl

theorem overrideCmds_JF (n : String) :
    overrideCmds n Status.JUMP_FALL = [MixerCmd.setTimeScale n 0] := rfl

/-- C8: whenever the mapped action exists, the status effect ends by
setting that action's timeScale: 0.45 for WALK and RUN, 1.0 (0.5*2) for
JUMP_START, 0.88 (0.44*2) for JUMP_LAND, 0 for JUMP_IDLE and JUMP_FALL;
for IDLE no trailing override runs, so any timeScale assigned during the
update is the transition's value 1. -/
theorem timescale_overrides (actions : List String) (s : CtrlState) (status : Status)
    (hmem : statusToActionMap status ∈ actions) :
    ((status = Status.WALK ∨ status = Status.RUN) →
      (statusUpdate actions s status).2.getLast? =
        some (MixerCmd.setTimeScale (statusToActionMap status) (45/100))) ∧
    (status = Status.JUMP_START →
      (statusUpdate actions s status).2.getLast? =
        some (MixerCmd.setTimeScale (statusToActionMap status) 1)) ∧
    (status = Status.JUMP_LAND →
      (statusUpdate actions s status).2.getLast? =
        some (MixerCmd.setTimeScale (statusToActionMap status) (88/100))) ∧
    ((status = Status.JUMP_IDLE ∨ status = Status.JUMP_FALL) →
      (statusUpdate actions s status).2.getLast? =
        some (MixerCmd.setTimeScale (statusToActionMap status) 0)) ∧
    (status = Status.IDLE →
      ∀ c ∈ (statusUpdate actions s status).2,
        ∀ a v, c = MixerCmd.setTimeScale a v → v = 1) := by
  have hstep : (statusUpdate actions s status).2 =
      (transitionResult s status).2 ++ overrideCmds (statusToActionMap status) status := by
    unfold statusUpdate
    rw [if_pos hmem]
  refine ⟨?_, ?_, ?_, ?_, ?_⟩
  · rintro (rfl | rfl)
    · rw [hstep, overrideCmds_WALK, List.getLast?_concat]
    · rw [hstep, overrideCmds_RUN, List.getLast?_concat]
  · rintro rfl
    rw [hstep, overrideCmds_JS, List.getLast?_concat]
    norm_num
  · rintro rfl
    rw [hstep, overrideCmds_JL, List.getLast?_concat]
    norm_num
  · rintro (rfl | rfl)
    · rw [hstep, overrideCmds_JI, List.getLast?_concat]
    · rw [hstep, overrideCmds_JF, List.getLast?_concat]
  · rintro rfl
    rw [hstep]
    intro c hc a v hveq
    subst hveq
    rw [List.mem_append] at hc
    rcases hc with hc | hc
    · unfold transitionResult at hc
      dsimp only at hc
      split at hc <;> rename_i hguard
      · split at hc <;> rename_i hjump
        · simp [statusToActionMap] at hjump
        · dsimp only at hc
          simp only [loopingCmds, statusToActionMap, List.mem_cons,
            List.not_mem_nil, or_false] at hc
          rcases hc with hc | hc | hc | hc <;> simp_all
      · dsimp only at hc
        simp at hc
    · simp [overrideCmds] at hc

theorem timescale_overrides_witness :
    ((Status.RUN = Status.WALK ∨ Status.RUN = Status.RUN) →
      (statusUpdate ["JOG"] initialState Status.RUN).2.getLast? =
        some (MixerCmd.setTimeScale (statusToActionMap Status.RUN) (45/100))) ∧
    (Status.RUN = Status.JUMP_START →
      (statusUpdate ["JOG"] initialState Status.RUN).2.getLast? =
        some (MixerCmd.setTimeScale (statusToActionMap Status.RUN) 1)) ∧
    (Status.RUN = Status.JUMP_LAND →
      (statusUpdate ["JOG"] initialState Status.RUN).2.getLast? =
        some (MixerCmd.setTimeScale (statusToActionMap Status.RUN) (88/100))) ∧
    ((Status.RUN = Status.JUMP_IDLE ∨ Status.RUN = Status.JUMP_FALL) →
      (statusUpdate ["JOG"] initialState Status.RUN).2.getLast? =
        some (MixerCmd.setTimeScale (statusToActionMap Status.RUN) 0)) ∧
    (Status.RUN = Status.IDLE →
      ∀ c ∈ (statusUpdate ["JOG"] initialState Status.RUN).2,
        ∀ a v, c = MixerCmd.setTimeScale a v → v = 1) :=
  timescale_overrides ["JOG"] initialState Status.RUN (by decide)
